import Mathlib

/-!
Verification of the orchestr8-backend resource-lifecycle engine.

This file shallowly embeds the Python source (src/app/models.py,
src/app/views.py, src/app/core.py) as pure Lean functions over an explicit
database/filesystem state, and proves the specified properties about them.

Modelling conventions, fixed once here:
* SQL rows are Lean structures mirroring the columns of models.py; the
  database is lists of rows plus the autoincrement counters that the
  primary-key columns provide.
* `bcrypt.hashpw`/`bcrypt.checkpw` are modelled as an ideal collision-free
  keyed hash: `hashpw` is injective and `checkpw p h` holds exactly when
  `h = hashpw p`.  Concretely we take `hashpw` to be the identity, which has
  exactly these two properties.
* `jwt.encode`/`jwt.decode` with a fixed process secret: a `Token` value is
  the decoded payload `{id, key}` of a credential whose signature already
  verified; an undecodable credential is represented by `Option.none` where
  the code would pass an arbitrary string to `jwt.decode` (which raises).
* A Python view returns `(status, body)` or raises; `PyRes` has a
  constructor for each.  The `get_session` wrapper in db.py rolls the
  database back when an exception escapes, so every `.exn` outcome is paired
  with the database state from before the call; filesystem writes and
  `kubectl` invocations are not transactional and survive.
* Manifest files are pairs of file name and structured content (the literal
  YAML text is irrelevant to every property below; only the embedded fields
  matter), and `kubectl` invocations are recorded as an ordered trace.
* `random.SystemRandom` draws are nondeterministic, so freshly drawn session
  keys are explicit arguments of `register`/`login`.
-/

namespace Orchestr8

/-- Model of `bcrypt.hashpw(s, gensalt())`: an ideal collision-free one-way
hash, taken to be the identity function (all that the proofs use is that
`checkpw p h` succeeds exactly when `h = hashpw p`). -/
def hashpw (s : String) : String := s

/-- Model of `bcrypt.checkpw(p, h)`. -/
def checkpw (p h : String) : Bool := p == h

/-- The decoded payload of a signed credential (`jwt.decode` succeeded):
`{'id': ..., 'key': ...}` as built by `register`/`login` in views.py. -/
structure Token where
  id : Nat
  key : String
deriving Repr, DecidableEq

/-- models.py `User` row. -/
structure UserRow where
  id : Nat
  username : String
  password : String
  is_admin : Bool
  session_key : Option String
deriving Repr, DecidableEq

/-- models.py `Storage` row. -/
structure StorageRow where
  id : Nat
  name : String
  capacity : String
  user_id : Nat
deriving Repr, DecidableEq

/-- models.py `Pod` row.  Note: the table has no `mount_path` column. -/
structure PodRow where
  id : Nat
  name : String
  container_image : String
  cpu : String
  memory : String
  gpu : Int
  port : Int
  user_id : Nat
  storage_id : Option Nat
deriving Repr, DecidableEq

/-- models.py `ReservedPort` row (`external_port` carries a storage-level
UniqueConstraint). -/
structure ReservedPortRow where
  id : Nat
  port : Int
  external_port : Int
  protocol : String
  user_id : Nat
  pod_id : Nat
deriving Repr, DecidableEq

/-- models.py `PodEnv` row. -/
structure PodEnvRow where
  id : Nat
  name : String
  value : String
  user_id : Nat
  pod_id : Nat
deriving Repr, DecidableEq

/-- The relational ledger: one list per table plus autoincrement counters. -/
structure DB where
  users : List UserRow
  storages : List StorageRow
  pods : List PodRow
  reserved_ports : List ReservedPortRow
  pod_envs : List PodEnvRow
  next_user_id : Nat
  next_storage_id : Nat
  next_pod_id : Nat
  next_port_id : Nat
  next_env_id : Nat
deriving Repr, DecidableEq

/-- Structured content of an on-disk manifest file (only the fields the
engine embeds matter; the literal YAML text is out of scope). -/
inductive Manifest where
  /-- PersistentVolumeClaim written by `create_volume`. -/
  | pvc (name capacity : String)
  /-- NodePort Service written by `add_exposed_port_to_pod`:
  name, protocol, port, targetPort, nodePort, selector. -/
  | svc (name protocol : String) (port targetPort nodePort : Int) (selector : String)
  /-- Workload manifest rendered by core.py `create_pod_yaml`: name, image,
  cpu/memory limits, optional gpu limit, container port, claim name of the
  optional volume clause, optional volume mount (its path is the literal
  `/workspace` in the template), whether the gpu node-selector clause is
  present, and the env block. -/
  | podSpec (name image cpu memory : String) (gpu_limit : Option Int)
      (port : Int) (claim : Option String) (mount : Option String)
      (gpu_node_selector : Bool) (env : List (String × String))
deriving Repr, DecidableEq

/-- One `subprocess.run("microk8s kubectl ...")` invocation. -/
inductive Kube where
  | applyFile (fname : String)
  | delSvc (name : String)
  | delPod (name : String)
  | delPvc (name : String)
deriving Repr, DecidableEq

/-- Full engine state: ledger, the two manifest directories
(`PODS_META_PATH`, `VOLUMES_META_PATH`) and the ordered trace of kubectl
commands issued so far. -/
structure St where
  db : DB
  pods_meta : List (String × Manifest)
  vols_meta : List (String × Manifest)
  kube : List Kube
deriving Repr, DecidableEq

/-- Python `open(fname, "w")` + write: truncate if present, else create. -/
def writeMeta (fs : List (String × Manifest)) (nm : String) (mf : Manifest) :
    List (String × Manifest) :=
  if fs.any (fun p => p.1 == nm) then
    fs.map (fun p => if p.1 == nm then (nm, mf) else p)
  else
    fs ++ [(nm, mf)]

/-- Python `os.remove(fname)`: `none` models the `FileNotFoundError` raised
when the file does not exist. -/
def removeMeta (fs : List (String × Manifest)) (nm : String) :
    Option (List (String × Manifest)) :=
  if fs.any (fun p => p.1 == nm) then
    some (fs.filter (fun p => !(p.1 == nm)))
  else
    none

/-- Outcome of one view call: an HTTP `(status, body)` return, or an
unhandled Python exception. -/
inductive PyRes (α : Type) where
  | ret (status : Nat) (v : α)
  | exn (msg : String)
deriving Repr, DecidableEq

/-- `SELECT ... WHERE User.id == uid` followed by `.scalar()`. -/
def DB.findUser (db : DB) (uid : Nat) : Option UserRow :=
  db.users.find? (fun u => u.id == uid)

/-- Outcome of the credential check every view inlines. -/
inductive Auth where
  | ok (u : UserRow)
  | forbidden
  | raised (msg : String)
deriving Repr, DecidableEq

/-- The authentication preamble inlined in every view of views.py:
look the user up by the token's embedded id and compare the stored bcrypt
hash of the session key.  When the id matches no row, `user` is `None` and
`user.session_key` raises `AttributeError`; a null stored `session_key`
likewise raises on `.encode()`; a hash mismatch returns 403. -/
def authUser (db : DB) (tok : Token) : Auth :=
  match db.findUser tok.id with
  | none => .raised "AttributeError: NoneType object has no attribute session_key"
  | some u =>
    match u.session_key with
    | none => .raised "AttributeError: NoneType object has no attribute encode"
    | some h => if checkpw tok.key h then .ok u else .forbidden

/-- SQL `SELECT max(col)`: `NULL` (= `none`) on an empty table, mirrored by
`func.max(ReservedPort.external_port)` + `.scalar()` in views.py. -/
def pyMax (l : List Int) : Option Int :=
  l.foldl (fun acc x =>
    match acc with
    | none => some x
    | some m => some (max m x)) none

/-- `name.strip().replace(" ", "_")` from views.py: strip leading and
trailing whitespace, then replace every space with an underscore (the
pattern is a single character, so the replacement is a character map).
Spelled out over the character list so that concrete inputs evaluate. -/
def sanitize (s : String) : String :=
  ⟨(((s.data.dropWhile Char.isWhitespace).reverse.dropWhile
      Char.isWhitespace).reverse).map (fun c => if c = ' ' then '_' else c)⟩

/-- The allocation rule of views.py lines 385-389: `SELECT max(external_port)`
over ALL ReservedPort rows, `30001` when that is falsy (`NULL` on an empty
table — or `0`, since the code tests Python falsiness), else `max + 1`. -/
def allocExternal (l : List Int) : Int :=
  match pyMax l with
  | none => 30001
  | some v => if v == 0 then 30001 else v + 1

/-- views.py `add_exposed_port_to_pod` (lines 365-423): authenticate, check
the pod belongs to the caller, 400 when the internal port is already
reserved for this (user, pod), otherwise allocate
`allocExternal` (lines 385-389), insert the row, write the NodePort service
manifest and apply it. -/
def add_exposed_port_to_pod (s : St) (tok : Token) (pod_id : Nat) (port : Int)
    (protocol : String) : PyRes String × St :=
  match authUser s.db tok with
  | .raised m => (.exn m, s)
  | .forbidden => (.ret 403 "Invalid credentials.", s)
  | .ok user =>
    match (s.db.pods.filter (fun p => p.user_id == tok.id)).find?
        (fun p => p.id == pod_id) with
    | none => (.ret 403 "Invalid credentials.", s)
    | some pod =>
      let mine := s.db.reserved_ports.filter
        (fun r => r.user_id == tok.id && r.pod_id == pod.id)
      if mine.any (fun r => r.port == port) then
        (.ret 400 "Invalid Request.", s)
      else
        let port_to_reserve : Int :=
          allocExternal (s.db.reserved_ports.map (fun r => r.external_port))
        let row : ReservedPortRow :=
          { id := s.db.next_port_id, port := port,
            external_port := port_to_reserve, protocol := protocol,
            user_id := user.id, pod_id := pod.id }
        let fname := pod.name ++ "-" ++ toString port ++ ".yaml"
        let mf : Manifest :=
          .svc (pod.name ++ "-" ++ toString port) protocol port port
            port_to_reserve pod.name
        ( .ret 200 "Done."
        , { s with
            db := { s.db with
                    reserved_ports := s.db.reserved_ports ++ [row],
                    next_port_id := s.db.next_port_id + 1 },
            pods_meta := writeMeta s.pods_meta fname mf,
            kube := s.kube ++ [.applyFile fname] } )

/-- core.py `create_pod_yaml` (lines 73-130).  Its Python parameter list is
`(pod_name, storage_id, container_image, storage_name, cpu, memory, gpu,
port, env)` — it accepts NO `mount_path` parameter; the template hardcodes
`mountPath: "/workspace"`.  Returns the written file's name and content.
(Both call sites in views.py pass a `mount_path=...` keyword argument, so
in the repository as it stands this function body is never reached; it is
embedded for reference.) -/
def create_pod_yaml (pod_name : String) (storage_id : Nat)
    (container_image storage_name cpu memory : String) (gpu port : Int)
    (env : List (String × String)) : String × Manifest :=
  ( pod_name ++ ".yaml"
  , .podSpec pod_name container_image cpu memory
      (if gpu > 0 then some gpu else none)
      port
      (if storage_id != 0 then some storage_name else none)
      (if storage_id != 0 then some "/workspace" else none)
      (decide (gpu > 0))
      env )

/-- views.py `create_volume` (lines 57-92): authenticate, sanitize the
name, insert the Storage row (the table's unique-name constraint makes the
flush raise on a duplicate, rolling back), write the PVC manifest, apply. -/
def create_volume (s : St) (tok : Token) (name capacity : String) :
    PyRes String × St :=
  match authUser s.db tok with
  | .raised m => (.exn m, s)
  | .forbidden => (.ret 403 "Invalid credentials.", s)
  | .ok user =>
    let name_s := sanitize name
    if s.db.storages.any (fun v => v.name == name_s) then
      (.exn "IntegrityError: duplicate key value in storage.name", s)
    else
      let row : StorageRow :=
        { id := s.db.next_storage_id, name := name_s, capacity := capacity,
          user_id := user.id }
      let fname := name_s ++ ".yaml"
      ( .ret 200 "OK."
      , { s with
          db := { s.db with
                  storages := s.db.storages ++ [row],
                  next_storage_id := s.db.next_storage_id + 1 },
          vols_meta := writeMeta s.vols_meta fname (.pvc name_s capacity),
          kube := s.kube ++ [.applyFile fname] } )

/-- views.py `create_pod` (lines 107-150): authenticate, scan the caller's
storages for one whose id equals `storage_id` (keeping the last match,
like the Python loop), sanitize the name, stage the Pod row
(`session.add` + `flush`; a duplicate name makes the flush raise).  The
transaction then never commits: evaluating the arguments of the
`create_pod_yaml(...)` call raises.  With `storage_id != 0` and no owned
matching Storage, `storage.name` dereferences `None` (AttributeError);
otherwise the call itself raises TypeError, because `create_pod_yaml`
(core.py line 73) accepts no `mount_path` keyword argument while views.py
line 145 passes one.  `get_session` rolls the staged row back, so the
state is returned unchanged.  Note the staged row's `storage_id` column
would have been `storage_id if storage_id != 0 else None` — the raw
argument, owned or not. -/
def create_pod (s : St) (tok : Token)
    (name container_image cpu memory mount_path : String)
    (gpu : Int) (storage_id : Nat) (port : Int) : PyRes String × St :=
  match authUser s.db tok with
  | .raised m => (.exn m, s)
  | .forbidden => (.ret 403 "Invalid credentials.", s)
  | .ok _user =>
    let storages := s.db.storages.filter (fun v => v.user_id == tok.id)
    let storage := storages.foldl
      (fun acc v => if v.id == storage_id then some v else acc)
      (none : Option StorageRow)
    let name_s := sanitize name
    if s.db.pods.any (fun p => p.name == name_s) then
      (.exn "IntegrityError: duplicate key value in pod.name", s)
    else if storage_id != 0 && storage.isNone then
      (.exn "AttributeError: NoneType object has no attribute name", s)
    else
      (.exn "TypeError: create_pod_yaml() got an unexpected keyword argument mount_path", s)

/-- The insertion tail of views.py `register` (lines 180-196): insert the
User row (unique username: a duplicate raises at flush), mint a fresh
session key, store its hash on the new row and return the signed token. -/
def register_insert (db : DB) (username password fresh_key : String)
    (is_admin : Bool) : PyRes (Option Token) × DB :=
  if db.users.any (fun u => u.username == username) then
    (.exn "IntegrityError: duplicate key value in user.username", db)
  else
    let uid := db.next_user_id
    let new_user : UserRow :=
      { id := uid, username := username, password := hashpw password,
        is_admin := is_admin, session_key := some (hashpw fresh_key) }
    ( .ret 200 (some ⟨uid, fresh_key⟩)
    , { db with users := db.users ++ [new_user], next_user_id := uid + 1 } )

/-- views.py `register` (lines 165-196): when no user exists the credential
is never decoded and the new user is made admin; otherwise the credential
must decode (`cred = none` models an undecodable bearer value, on which
`jwt.decode` raises) and authenticate to an admin, and the new user is made
non-admin.  The 200 body is the fresh signed token for the NEW user; 403
bodies are the string `"Invalid credentials."`, modelled as `none`. -/
def register (db : DB) (username password : String) (cred : Option Token)
    (fresh_key : String) : PyRes (Option Token) × DB :=
  if db.users.length == 0 then
    register_insert db username password fresh_key true
  else
    match cred with
    | none => (.exn "DecodeError: not enough segments", db)
    | some tok =>
      match authUser db tok with
      | .raised m => (.exn m, db)
      | .forbidden => (.ret 403 none, db)
      | .ok u =>
        if u.is_admin then register_insert db username password fresh_key false
        else (.ret 403 none, db)

/-- views.py `login` (lines 199-221): resolve the user by username
(bootstrap: with an empty user table fall through to `register`), verify
the password hash, rotate the session key to the hash of the freshly drawn
`fresh_key` and return the new signed token. -/
def login (db : DB) (username password fresh_key : String) :
    PyRes (Option Token) × DB :=
  match db.users.find? (fun u => u.username == username) with
  | none =>
    if db.users.length == 0 then register db username password none fresh_key
    else (.ret 403 none, db)
  | some user =>
    if !(checkpw password user.password) then (.ret 403 none, db)
    else
      ( .ret 200 (some ⟨user.id, fresh_key⟩)
      , { db with users := db.users.map (fun v =>
            if v.id == user.id then
              { v with session_key := some (hashpw fresh_key) }
            else v) } )

/-- views.py `delete_user` (lines 282-294): authenticate, require admin,
look the target up by id — when it matches no row, `session.delete(None)`
raises — and delete the row.  Only the User row is removed: the code
configures no ORM cascade, so the user's Pods, Storages, ReservedPorts and
PodEnvs are not touched by this statement. -/
def delete_user (s : St) (tok : Token) (user_id : Nat) : PyRes String × St :=
  match authUser s.db tok with
  | .raised m => (.exn m, s)
  | .forbidden => (.ret 403 "Invalid credentials.", s)
  | .ok user =>
    if !user.is_admin then (.ret 403 "Invalid credentials.", s)
    else
      match s.db.findUser user_id with
      | none => (.exn "UnmappedInstanceError: None is not mapped", s)
      | some _ =>
        ( .ret 200 "Done."
        , { s with db := { s.db with
              users := s.db.users.filter (fun u => !(u.id == user_id)) } } )

/-- One observable action of `delete_pod`, in the order the Python code
performs them: ledger deletions, kubectl teardown commands and manifest
file removals. -/
inductive Ev where
  | dbDelPort (rid : Nat)
  | kubeDelSvc (name : String)
  | dbDelEnv (rid : Nat)
  | rmFile (fname : String)
  | dbDelPod (pid : Nat)
  | kubeDelPod (name : String)
deriving Repr, DecidableEq

/-- The end state of a successful `delete_pod` (views.py lines 311-338):
the ReservedPort and PodEnv rows of this (caller, pod) and the Pod row are
gone from the ledger, every manifest file whose name the pod's name
prefixes is gone from `PODS_META_PATH`, and the kubectl trace grew by one
service deletion per reservation followed by the workload deletion. -/
def deletePodState (s : St) (tok : Token) (pod : PodRow) : St :=
  { s with
    db := { s.db with
      reserved_ports := s.db.reserved_ports.filter
        (fun r => !(r.user_id == tok.id && r.pod_id == pod.id)),
      pod_envs := s.db.pod_envs.filter
        (fun e => !(e.user_id == tok.id && e.pod_id == pod.id)),
      pods := s.db.pods.filter (fun p => !(p.id == pod.id)) },
    pods_meta := s.pods_meta.filter (fun p => !(pod.name.isPrefixOf p.1)),
    kube := s.kube
      ++ (s.db.reserved_ports.filter
            (fun r => r.user_id == tok.id && r.pod_id == pod.id)).map
          (fun r => Kube.delSvc (pod.name ++ "-" ++ toString r.port))
      ++ [Kube.delPod pod.name] }

/-- The actions of a successful `delete_pod`, in source order: per
ReservedPort of this (caller, pod) the row deletion then the service
teardown, then the PodEnv row deletions, then (second session) the
manifest file removals, the Pod row deletion, and the workload teardown. -/
def deletePodEvents (s : St) (tok : Token) (pod : PodRow) : List Ev :=
  ((s.db.reserved_ports.filter
      (fun r => r.user_id == tok.id && r.pod_id == pod.id)).flatMap
    (fun r =>
      [Ev.dbDelPort r.id, Ev.kubeDelSvc (pod.name ++ "-" ++ toString r.port)]))
  ++ (s.db.pod_envs.filter
        (fun e => e.user_id == tok.id && e.pod_id == pod.id)).map
      (fun e => Ev.dbDelEnv e.id)
  ++ (s.pods_meta.filter (fun p => pod.name.isPrefixOf p.1)).map
      (fun p => Ev.rmFile p.1)
  ++ [Ev.dbDelPod pod.id, Ev.kubeDelPod pod.name]

/-- views.py `delete_pod` (lines 297-340): authenticate; 403 unless the pod
id is among the caller's pods; session one deletes each ReservedPort row of
this (user, pod) and its service object, then each PodEnv row; session two
removes every manifest file matching `re.match(f"{pod.name}.*", ...)` —
for names free of regex metacharacters (the app only builds names via
`sanitize`) this is exactly "the pod's name is a prefix of the file name" —
then deletes the Pod row and finally the live workload object.  Besides
the final state the embedding returns the ordered list of observable
actions. -/
def delete_pod (s : St) (tok : Token) (pod_id : Nat) :
    PyRes String × St × List Ev :=
  match authUser s.db tok with
  | .raised m => (.exn m, s, [])
  | .forbidden => (.ret 403 "Invalid credentials.", s, [])
  | .ok _user =>
    match (s.db.pods.filter (fun p => p.user_id == tok.id)).find?
        (fun p => p.id == pod_id) with
    | none => (.ret 403 "Invalid credentials.", s, [])
    | some pod => (.ret 200 "Done.", deletePodState s tok pod, deletePodEvents s tok pod)

/-- views.py `delete_exposed_port` (lines 426-454): authenticate; 403
unless `pod_id` is one of the caller's pods; 403 unless `port_id` is one of
the caller's reservations — searched over ALL the caller's ReservedPort
rows, with no check that the reservation is attached to the given pod.
`os.remove` targets `{pod.name}-{reservation.port}.yaml` (the GIVEN pod's
name combined with the reservation's internal port) and raises
FileNotFoundError when that file is absent, rolling the row deletion back;
otherwise the row is deleted and the service of the same key torn down. -/
def delete_exposed_port (s : St) (tok : Token) (pod_id port_id : Nat) :
    PyRes String × St :=
  match authUser s.db tok with
  | .raised m => (.exn m, s)
  | .forbidden => (.ret 403 "Invalid credentials.", s)
  | .ok _user =>
    match (s.db.pods.filter (fun p => p.user_id == tok.id)).find?
        (fun p => p.id == pod_id) with
    | none => (.ret 403 "Invalid credentials.", s)
    | some pod =>
      match (s.db.reserved_ports.filter (fun r => r.user_id == tok.id)).find?
          (fun r => r.id == port_id) with
      | none => (.ret 403 "Invalid credentials.", s)
      | some rp =>
        let fname := pod.name ++ "-" ++ toString rp.port ++ ".yaml"
        match removeMeta s.pods_meta fname with
        | none => (.exn "FileNotFoundError", s)
        | some fs' =>
          ( .ret 200 "Done."
          , { s with
              db := { s.db with reserved_ports :=
                s.db.reserved_ports.filter (fun r => !(r.id == rp.id)) },
              pods_meta := fs',
              kube := s.kube
                ++ [Kube.delSvc (pod.name ++ "-" ++ toString rp.port)] } )

/-- views.py `recreate_pod` (lines 551-596): authenticate; 403 unless the
pod id is among the caller's pods; the pod's envs and optional storage are
loaded (no state effect) and the live workload is deleted
(`kubectl delete pod`).  Then the arguments of the `create_pod_yaml(...)`
call are evaluated left to right and the last one, `mount_path =
pod.mount_path` (views.py line 591), raises AttributeError: the Pod model
(models.py lines 45-59) has no `mount_path` column (nor does
`create_pod_yaml`, core.py line 73, accept such a keyword).  The manifest
is never re-rendered and nothing is re-applied; `get_session` rolls back
(the function had staged no ledger mutation), but the kubectl delete has
already run, so the live workload is gone. -/
def recreate_pod (s : St) (tok : Token) (pod_id : Nat) : PyRes String × St :=
  match authUser s.db tok with
  | .raised m => (.exn m, s)
  | .forbidden => (.ret 403 "Invalid credentials.", s)
  | .ok _user =>
    match (s.db.pods.filter (fun p => p.user_id == tok.id)).find?
        (fun p => p.id == pod_id) with
    | none => (.ret 403 "Invalid credentials.", s)
    | some pod =>
      ( .exn "AttributeError: Pod object has no attribute mount_path"
      , { s with kube := s.kube ++ [Kube.delPod pod.name] } )

/-- One container of a workload returned by the orchestrator's pod-list
query, as read by core.py `get_gpu_info`: the `nvidia.com/gpu` entry of
`resources.requests` (absent key defaults to 0 via `.get(..., 0)`) and,
for reference, the same entry of `resources.limits`, which `get_gpu_info`
never reads. -/
structure ContainerJson where
  gpu_request : Option Int
  gpu_limit : Option Int
deriving Repr, DecidableEq

/-- One workload as returned by the orchestrator, with the node it is
scheduled on (`spec.nodeName`) and its containers. -/
structure PodJson where
  node_name : String
  containers : List ContainerJson
deriving Repr, DecidableEq

/-- One cluster node: its name and the `nvidia.com/gpu` entry of
`status.capacity`, absent when the node exposes no GPU. -/
structure NodeJson where
  name : String
  gpu_capacity : Option Int
deriving Repr, DecidableEq

/-- A total/allocated/available triple. -/
structure GpuFig where
  total : Int
  allocated : Int
  available : Int
deriving Repr, DecidableEq

/-- One per-node line of the capacity report. -/
structure NodeEntry where
  node : String
  total : Int
  allocated : Int
  available : Int
deriving Repr, DecidableEq

/-- The shape returned by core.py `get_gpu_info`. -/
structure GpuReport where
  cluster : GpuFig
  nodes : List NodeEntry
deriving Repr, DecidableEq

/-- The inner double loop of `get_gpu_info` for one node: sum the declared
GPU resource REQUESTS of every container of every workload scheduled on the
node (the field-selector `spec.nodeName={node}` query). -/
def nodeAllocated (pods : List PodJson) (node_name : String) : Int :=
  ((pods.filter (fun p => p.node_name == node_name)).map
    (fun p => (p.containers.map (fun c => c.gpu_request.getD 0)).sum)).sum

/-- core.py `get_gpu_info` (lines 9-64): walk the nodes, skipping those
whose capacity lacks the GPU resource; per retained node record
`total = capacity`, `allocated =` summed container requests on that node,
`available = total - allocated`, accumulating the cluster totals along the
way; cluster `available = total - allocated`. -/
def get_gpu_info (nodes : List NodeJson) (pods : List PodJson) : GpuReport :=
  let acc := nodes.foldl
    (fun (acc : Int × Int × List NodeEntry) (node : NodeJson) =>
      match node.gpu_capacity with
      | none => acc
      | some cap =>
        let alloc := nodeAllocated pods node.name
        ( acc.1 + cap, acc.2.1 + alloc
        , acc.2.2 ++ [{ node := node.name, total := cap, allocated := alloc,
                        available := cap - alloc }]))
    ((0 : Int), (0 : Int), ([] : List NodeEntry))
  { cluster := { total := acc.1, allocated := acc.2.1,
                 available := acc.1 - acc.2.1 },
    nodes := acc.2.2 }

/-! ### Example states used by the closed theorems and witnesses -/

/-- Empty ledger, all autoincrement counters at 1. -/
def exDB0 : DB := ⟨[], [], [], [], [], 1, 1, 1, 1, 1⟩

/-- A registered admin whose current session key is `K1`. -/
def exUserA : UserRow := ⟨1, "alice", "pw", true, some "K1"⟩

/-- A valid token for `exUserA`'s current session. -/
def exTokA : Token := ⟨1, "K1"⟩

def exPod1 : PodRow := ⟨1, "mypod", "img", "2", "4Gi", 0, 80, 1, none⟩

def exPod2 : PodRow := ⟨2, "otherpod", "img", "2", "4Gi", 0, 80, 1, none⟩

/-- A second user, not an admin. -/
def exUserB : UserRow := ⟨2, "bob", "pw2", false, some "K2"⟩

/-- A Storage owned by `exUserB` with id 5. -/
def exStorageB : StorageRow := ⟨5, "bobvol", "5Gi", 2⟩

/-- Ledger with `exUserA` owning two pods, `exUserB` owning Storage 5, and
one ReservedPort (id 1, internal 80, external 30001) attached to pod 2. -/
def exDB1 : DB :=
  ⟨[exUserA, exUserB], [exStorageB], [exPod1, exPod2],
   [⟨1, 80, 30001, "TCP", 1, 2⟩], [], 3, 6, 3, 2, 1⟩

/-- `exDB1` plus only pod 2's service manifest on disk. -/
def exSt1 : St :=
  ⟨exDB1, [("otherpod-80.yaml", .svc "otherpod-80" "TCP" 80 80 30001 "otherpod")],
   [], []⟩

/-! ### Helper lemmas -/

theorem foldl_max_le_self (xs : List Int) (a : Int) : a ≤ xs.foldl max a := by
  induction xs generalizing a with
  | nil => simp
  | cons y ys ih =>
    simp only [List.foldl_cons]
    exact le_trans (le_max_left a y) (ih (max a y))

theorem foldl_max_le {xs : List Int} {x : Int} (hx : x ∈ xs) (a : Int) :
    x ≤ xs.foldl max a := by
  induction xs generalizing a with
  | nil => cases hx
  | cons y ys ih =>
    simp only [List.foldl_cons]
    rcases List.mem_cons.mp hx with rfl | hx'
    · exact le_trans (le_max_right a x) (foldl_max_le_self ys (max a x))
    · exact ih hx' (max a y)

theorem foldl_max_mem (xs : List Int) (a : Int) :
    xs.foldl max a = a ∨ xs.foldl max a ∈ xs := by
  induction xs generalizing a with
  | nil => simp
  | cons y ys ih =>
    simp only [List.foldl_cons]
    rcases ih (max a y) with h | h
    · rcases max_choice a y with hm | hm
      · exact Or.inl (h.trans hm)
      · exact Or.inr (List.mem_cons.mpr (Or.inl (h.trans hm)))
    · exact Or.inr (List.mem_cons.mpr (Or.inr h))

theorem pyMax_cons_aux (xs : List Int) (m : Int) :
    xs.foldl (fun acc x =>
      match acc with
      | none => some x
      | some m' => some (max m' x)) (some m) = some (xs.foldl max m) := by
  induction xs generalizing m with
  | nil => rfl
  | cons y ys ih => simpa using ih (max m y)

theorem pyMax_nil : pyMax [] = none := rfl

theorem pyMax_cons (x : Int) (xs : List Int) :
    pyMax (x :: xs) = some (xs.foldl max x) := by
  simpa [pyMax] using pyMax_cons_aux xs x

theorem pyMax_eq_none {l : List Int} (h : pyMax l = none) : l = [] := by
  cases l with
  | nil => rfl
  | cons x xs => rw [pyMax_cons] at h; cases h

theorem pyMax_le {l : List Int} {m : Int} (h : pyMax l = some m) :
    ∀ x ∈ l, x ≤ m := by
  cases l with
  | nil => intro x hx; cases hx
  | cons y ys =>
    rw [pyMax_cons] at h
    injection h with h
    intro x hx
    rcases List.mem_cons.mp hx with rfl | hx'
    · exact h ▸ foldl_max_le_self ys x
    · exact h ▸ foldl_max_le hx' y

theorem pyMax_mem {l : List Int} {m : Int} (h : pyMax l = some m) : m ∈ l := by
  cases l with
  | nil => cases h
  | cons y ys =>
    rw [pyMax_cons] at h
    injection h with h
    rcases foldl_max_mem ys y with h' | h'
    · exact List.mem_cons.mpr (Or.inl (h.symm.trans h'))
    · exact List.mem_cons.mpr (Or.inr (h ▸ h'))

/-- `authUser` raises exactly when the token's embedded id matches no row. -/
theorem authUser_of_missing {db : DB} {tok : Token}
    (h : db.findUser tok.id = none) :
    authUser db tok
      = .raised "AttributeError: NoneType object has no attribute session_key" := by
  simp [authUser, h]

/-- An `authUser ... = .ok u` outcome determines the lookup and the key
comparison. -/
theorem authUser_ok_elim {db : DB} {tok : Token} {u : UserRow}
    (h : authUser db tok = .ok u) :
    db.findUser tok.id = some u ∧
      ∃ hsh, u.session_key = some hsh ∧ checkpw tok.key hsh = true := by
  unfold authUser at h
  split at h
  · cases h
  · next v hf =>
    split at h
    · cases h
    · next hsh hs =>
      split at h
      · next hc =>
        injection h with h
        subst h
        exact ⟨hf, hsh, hs, hc⟩
      · cases h

/-! ### C4: `recreate_pod` -/

/-- C4: the claim says a successful `recreatePod` preserves the stored pod
spec and re-renders/re-applies the manifest with the stored fields, mount
path and current PodEnv rows.  The code cannot do this for ANY pod: after
deleting the live workload it evaluates `pod.mount_path` — the Pod model
has no `mount_path` column (and `create_pod_yaml` accepts no `mount_path`
keyword) — and raises, so nothing is re-rendered or re-applied.  This
closed theorem evaluates the embedded code at the failing input: an
authenticated owner recreating their pod (id 1) out of `exSt1`. -/
theorem recreate_pod_raises_attribute_error :
    recreate_pod exSt1 exTokA 1
      = (.exn "AttributeError: Pod object has no attribute mount_path",
         { exSt1 with kube := [Kube.delPod "mypod"] }) := by
  decide

/-! ### C5: `create_pod` with an unowned `storage_id` -/

/-- C5: the claim says `createPod` with a non-zero `storage_id` not owned
by the caller succeeds, inserts a Pod row with null `storage_id`, and
renders a manifest without a volume clause.  On the code, the call instead
raises: the ownership scan leaves `storage = None` and the manifest-call
argument `storage.name` dereferences `None` (AttributeError); the staged
Pod row — whose `storage_id` column held the raw, unowned id, not null —
is rolled back.  (With an owned or zero `storage_id` the call raises
TypeError instead, since `create_pod_yaml` accepts no `mount_path`
keyword, so `create_pod` never succeeds at all.)  This closed theorem
evaluates the embedded code at the failing input: `exUserA` creating a pod
with `storage_id = 5`, a Storage owned by `exUserB`. -/
theorem create_pod_raises_on_unowned_storage :
    create_pod exSt1 exTokA "newpod" "img" "1" "1Gi" "/workspace" 0 5 80
      = (.exn "AttributeError: NoneType object has no attribute name", exSt1)
    ∧ create_pod exSt1 exTokA "newpod" "img" "1" "1Gi" "/workspace" 0 0 80
      = (.exn "TypeError: create_pod_yaml() got an unexpected keyword argument mount_path",
         exSt1) := by
  constructor <;> decide

/-! ### C10: dangling tokens raise instead of failing closed -/

/-- C10: every authenticated operation dereferences the user looked up from
the token's embedded id before comparing session keys, so a token whose
signature verifies but whose user id matches no row (e.g. after that user
was deleted) makes each operation raise `AttributeError` out of
`user.session_key` instead of returning 401/403.  The state each operation
returns is unchanged (the transaction rolls back having mutated nothing). -/
theorem missing_user_raises_everywhere (s : St) (tok : Token)
    (h : s.db.findUser tok.id = none) :
    (∀ n c, create_volume s tok n c
      = (.exn "AttributeError: NoneType object has no attribute session_key", s)) ∧
    (∀ uid, delete_user s tok uid
      = (.exn "AttributeError: NoneType object has no attribute session_key", s)) ∧
    (∀ n i cu me mp g sid p, create_pod s tok n i cu me mp g sid p
      = (.exn "AttributeError: NoneType object has no attribute session_key", s)) ∧
    (∀ pid, delete_pod s tok pid
      = (.exn "AttributeError: NoneType object has no attribute session_key", s, [])) ∧
    (∀ pid q proto, add_exposed_port_to_pod s tok pid q proto
      = (.exn "AttributeError: NoneType object has no attribute session_key", s)) ∧
    (∀ pid prid, delete_exposed_port s tok pid prid
      = (.exn "AttributeError: NoneType object has no attribute session_key", s)) ∧
    (∀ pid, recreate_pod s tok pid
      = (.exn "AttributeError: NoneType object has no attribute session_key", s)) ∧
    (s.db.users ≠ [] → ∀ un pw k, register s.db un pw (some tok) k
      = (.exn "AttributeError: NoneType object has no attribute session_key", s.db)) := by
  have ha := authUser_of_missing h
  refine ⟨?_, ?_, ?_, ?_, ?_, ?_, ?_, ?_⟩
  · intro n c; simp [create_volume, ha]
  · intro uid; simp [delete_user, ha]
  · intro n i cu me mp g sid p; simp [create_pod, ha]
  · intro pid; simp [delete_pod, ha]
  · intro pid q proto; simp [add_exposed_port_to_pod, ha]
  · intro pid prid; simp [delete_exposed_port, ha]
  · intro pid; simp [recreate_pod, ha]
  · intro hne un pw k
    have hlen : (s.db.users.length == 0) = false := by
      simp [List.length_eq_zero, hne]
    simp [register, hlen, ha]

/-- Witness for C10 at a concrete input: token id 99 matches no user of
`exSt1`, the user table is non-empty, and the operations raise. -/
theorem missing_user_raises_everywhere_witness :
    exSt1.db.findUser 99 = none ∧ exSt1.db.users ≠ [] ∧
    create_volume exSt1 ⟨99, "X"⟩ "v" "1Gi"
      = (.exn "AttributeError: NoneType object has no attribute session_key", exSt1) ∧
    delete_user exSt1 ⟨99, "X"⟩ 1
      = (.exn "AttributeError: NoneType object has no attribute session_key", exSt1) ∧
    register exSt1.db "carol" "pw" (some ⟨99, "X"⟩) "K3"
      = (.exn "AttributeError: NoneType object has no attribute session_key", exSt1.db) := by
  have hm : exSt1.db.findUser (Token.id ⟨99, "X"⟩) = none := by decide
  have h := missing_user_raises_everywhere exSt1 ⟨99, "X"⟩ hm
  exact ⟨hm, by decide, h.1 "v" "1Gi", h.2.1 1,
    h.2.2.2.2.2.2.2 (by decide) "carol" "pw" "K3"⟩

/-! ### C9: `delete_exposed_port` keys the teardown by the given pod -/

/-- C9 counterexample: in `exSt1` the caller owns pod 1 (`mypod`) and
ReservedPort 1 — which is attached to pod 2 — so by the claim the call
`delete_exposed_port(pod_id := 1, port_id := 1)` should succeed; instead
`os.remove` targets `mypod-80.yaml` (the given pod's name with the
reservation's internal port), which is not on disk, and the call raises
FileNotFoundError, changing nothing. -/
theorem delete_exposed_port_cross_pod_raises :
    ((exSt1.db.pods.filter (fun p => p.user_id == exTokA.id)).find?
        (fun p => p.id == 1)).isSome = true
    ∧ ((exSt1.db.reserved_ports.filter (fun r => r.user_id == exTokA.id)).find?
        (fun r => r.id == 1)).isSome = true
    ∧ (∀ r ∈ exSt1.db.reserved_ports, r.id = 1 → r.pod_id ≠ 1)
    ∧ delete_exposed_port exSt1 exTokA 1 1 = (.exn "FileNotFoundError", exSt1) := by
  decide

/-- C9 (amended): whenever the caller owns the given pod and the referenced
reservation (the reservation may be attached to a DIFFERENT pod — nothing
ties `rp.pod_id` to `pod_id`), and the file
`{pod.name}-{rp.port}.yaml` exists, the call succeeds: it deletes the
reservation row, and the manifest file and the service it removes are
keyed by the given pod's name combined with the reservation's internal
port.  When that file is absent the call instead raises
FileNotFoundError (see the counterexample). -/
theorem delete_exposed_port_amended (s : St) (tok : Token)
    (pod_id port_id : Nat) (u : UserRow) (pod : PodRow) (rp : ReservedPortRow)
    (hauth : authUser s.db tok = .ok u)
    (hpod : (s.db.pods.filter (fun p => p.user_id == tok.id)).find?
      (fun p => p.id == pod_id) = some pod)
    (hrp : (s.db.reserved_ports.filter (fun r => r.user_id == tok.id)).find?
      (fun r => r.id == port_id) = some rp)
    (hfile : s.pods_meta.any
      (fun q => q.1 == pod.name ++ "-" ++ toString rp.port ++ ".yaml") = true) :
    delete_exposed_port s tok pod_id port_id
      = (.ret 200 "Done.",
         { s with
           db := { s.db with reserved_ports :=
             s.db.reserved_ports.filter (fun r => !(r.id == rp.id)) },
           pods_meta := s.pods_meta.filter
             (fun q => !(q.1 == pod.name ++ "-" ++ toString rp.port ++ ".yaml")),
           kube := s.kube ++ [Kube.delSvc (pod.name ++ "-" ++ toString rp.port)] }) := by
  simp only [delete_exposed_port, hauth, hpod, hrp, removeMeta, hfile, if_true]

/-- `exSt1` with the cross-keyed file `mypod-80.yaml` also on disk. -/
def exSt2 : St :=
  { exSt1 with pods_meta :=
      [("mypod-80.yaml", .svc "mypod-80" "TCP" 80 80 30001 "mypod"),
       ("otherpod-80.yaml", .svc "otherpod-80" "TCP" 80 80 30001 "otherpod")] }

/-- Witness for the amended C9 at a concrete input: reservation 1 is
attached to pod 2, the call names pod 1, the keyed file exists, and the
call succeeds, removing the cross-keyed file and service. -/
theorem delete_exposed_port_amended_witness :
    (∀ r ∈ exSt2.db.reserved_ports, r.id = 1 → r.pod_id ≠ 1) ∧
    delete_exposed_port exSt2 exTokA 1 1
      = (.ret 200 "Done.",
         { exSt2 with
           db := { exSt2.db with reserved_ports := [] },
           pods_meta :=
             [("otherpod-80.yaml", .svc "otherpod-80" "TCP" 80 80 30001 "otherpod")],
           kube := [Kube.delSvc "mypod-80"] }) := by
  constructor
  · decide
  · have h := delete_exposed_port_amended exSt2 exTokA 1 1 exUserA exPod1
      ⟨1, 80, 30001, "TCP", 1, 2⟩ (by decide) (by decide) (by decide) (by decide)
    exact h.trans (by decide)

/-! ### C6: `get_gpu_info` -/

/-- The per-node report entry `get_gpu_info` produces for a node, `none`
when the node's capacity lacks the GPU resource. -/
def entryOf (pods : List PodJson) (n : NodeJson) : Option NodeEntry :=
  n.gpu_capacity.map (fun cap =>
    { node := n.name, total := cap, allocated := nodeAllocated pods n.name,
      available := cap - nodeAllocated pods n.name })

theorem gpu_fold_char (pods : List PodJson) (nodes : List NodeJson) :
    ∀ (t a : Int) (es : List NodeEntry),
    nodes.foldl
      (fun (acc : Int × Int × List NodeEntry) (node : NodeJson) =>
        match node.gpu_capacity with
        | none => acc
        | some cap =>
          let alloc := nodeAllocated pods node.name
          ( acc.1 + cap, acc.2.1 + alloc
          , acc.2.2 ++ [{ node := node.name, total := cap, allocated := alloc,
                          available := cap - alloc }]))
      (t, a, es)
      = ( t + ((nodes.filterMap (entryOf pods)).map NodeEntry.total).sum
        , a + ((nodes.filterMap (entryOf pods)).map NodeEntry.allocated).sum
        , es ++ nodes.filterMap (entryOf pods) ) := by
  induction nodes with
  | nil => intro t a es; simp
  | cons n ns ih =>
    intro t a es
    cases hc : n.gpu_capacity with
    | none =>
      simp only [List.foldl_cons, hc, List.filterMap_cons, entryOf, hc,
        Option.map_none']
      exact ih t a es
    | some cap =>
      simp only [List.foldl_cons, hc, List.filterMap_cons, entryOf, hc,
        Option.map_some']
      rw [ih]
      simp [add_assoc, List.append_assoc]

theorem sum_map_available (es : List NodeEntry)
    (h : ∀ e ∈ es, e.available = e.total - e.allocated) :
    (es.map NodeEntry.available).sum
      = (es.map NodeEntry.total).sum - (es.map NodeEntry.allocated).sum := by
  induction es with
  | nil => simp
  | cons e es ih =>
    simp only [List.map_cons, List.sum_cons]
    rw [h e (List.mem_cons_self e es),
      ih (fun x hx => h x (List.mem_cons.mpr (Or.inr hx)))]
    ring

/-- A pod with every container's GPU resource LIMIT rewritten by `f`
(requests untouched). -/
def setLimits (f : ContainerJson → Option Int) (p : PodJson) : PodJson :=
  { p with containers := p.containers.map (fun c => { c with gpu_limit := f c }) }

/-- Changing the GPU resource LIMITS of any containers leaves the per-node
request sum unchanged. -/
theorem nodeAllocated_limits (f : ContainerJson → Option Int)
    (pods : List PodJson) (nm : String) :
    nodeAllocated (pods.map (setLimits f)) nm = nodeAllocated pods nm := by
  unfold nodeAllocated setLimits
  rw [List.filter_map]
  simp [Function.comp_def]

/-- C6: for every node the report carries an entry exactly when the node's
capacity exposes the GPU resource, that entry records `total =` the
capacity `C`, `allocated =` the sum `R` of the GPU resource REQUESTS over
the containers of the workloads scheduled on that node, and
`available = C - R`; the cluster figures are the sums of the per-node
figures, so `cluster.available = Σ available(N)`; and the report is
unchanged when any container's GPU LIMIT is altered (limits are never
read). -/
theorem get_gpu_info_spec (nodes : List NodeJson) (pods : List PodJson) :
    ((get_gpu_info nodes pods).nodes
        = nodes.filterMap (fun n => n.gpu_capacity.map (fun cap =>
            { node := n.name, total := cap,
              allocated := nodeAllocated pods n.name,
              available := cap - nodeAllocated pods n.name })))
    ∧ (∀ e ∈ (get_gpu_info nodes pods).nodes,
        e.available = e.total - e.allocated)
    ∧ (get_gpu_info nodes pods).cluster.total
        = ((get_gpu_info nodes pods).nodes.map NodeEntry.total).sum
    ∧ (get_gpu_info nodes pods).cluster.allocated
        = ((get_gpu_info nodes pods).nodes.map NodeEntry.allocated).sum
    ∧ (get_gpu_info nodes pods).cluster.available
        = ((get_gpu_info nodes pods).nodes.map NodeEntry.available).sum
    ∧ (∀ f : ContainerJson → Option Int,
        get_gpu_info nodes (pods.map (setLimits f))
          = get_gpu_info nodes pods) := by
  have hchar := gpu_fold_char pods nodes 0 0 []
  have hrep : get_gpu_info nodes pods
      = { cluster :=
            { total := ((nodes.filterMap (entryOf pods)).map NodeEntry.total).sum
            , allocated :=
                ((nodes.filterMap (entryOf pods)).map NodeEntry.allocated).sum
            , available :=
                ((nodes.filterMap (entryOf pods)).map NodeEntry.total).sum
                  - ((nodes.filterMap (entryOf pods)).map NodeEntry.allocated).sum }
        , nodes := nodes.filterMap (entryOf pods) } := by
    unfold get_gpu_info
    rw [hchar]
    simp
  have havail : ∀ e ∈ nodes.filterMap (entryOf pods),
      e.available = e.total - e.allocated := by
    intro e he
    rcases List.mem_filterMap.mp he with ⟨n, _, hn⟩
    unfold entryOf at hn
    cases hc : n.gpu_capacity with
    | none => rw [hc] at hn; cases hn
    | some cap =>
      rw [hc] at hn
      injection hn with hn
      subst hn
      rfl
  refine ⟨?_, ?_, ?_, ?_, ?_, ?_⟩
  · rw [hrep]; rfl
  · rw [hrep]; exact havail
  · rw [hrep]
  · rw [hrep]
  · rw [hrep]
    exact (sum_map_available _ havail).symm
  · intro f
    unfold get_gpu_info
    simp only [nodeAllocated_limits]

/-! ### C1: global distinctness of `external_port` -/

/-- The multiset of `external_port` values currently in the ledger. -/
def externalPorts (db : DB) : List Int :=
  db.reserved_ports.map (fun r => r.external_port)

/-- One reserve request: caller token, pod, internal port, protocol. -/
structure PortReq where
  tok : Token
  pod_id : Nat
  port : Int
  protocol : String
deriving Repr, DecidableEq

/-- A sequence of sequential `add_exposed_port_to_pod` calls (failed calls
leave the state untouched, successful ones insert their row). -/
def applyReserves (s : St) (reqs : List PortReq) : St :=
  reqs.foldl
    (fun st q => (add_exposed_port_to_pod st q.tok q.pod_id q.port q.protocol).2) s

/-- Every value already in the ledger is strictly below the next allocated
external port. -/
theorem lt_allocExternal (l : List Int) : ∀ x ∈ l, x < allocExternal l := by
  intro x hx
  unfold allocExternal
  cases hm : pyMax l with
  | none => rw [pyMax_eq_none hm] at hx; cases hx
  | some v =>
    have hle := pyMax_le hm x hx
    dsimp only
    simp only [beq_iff_eq]
    by_cases hv : v = (0 : Int)
    · rw [if_pos hv]; omega
    · rw [if_neg hv]; omega

theorem pairwise_append_fresh {l : List Int} {x : Int}
    (h : l.Pairwise (· ≠ ·)) (hx : ∀ y ∈ l, y < x) :
    (l ++ [x]).Pairwise (· ≠ ·) := by
  apply List.pairwise_append.mpr
  refine ⟨h, List.pairwise_singleton _ _, ?_⟩
  intro a ha b hb
  rcases List.mem_singleton.mp hb with rfl
  exact ne_of_lt (hx a ha)

/-- One `add_exposed_port_to_pod` call preserves pairwise distinctness of
the stored `external_port` values: every branch but the success branch is
a no-op, and the success branch appends a value strictly greater than
everything present. -/
theorem add_exposed_preserves_distinct (s : St) (tok : Token) (pid : Nat)
    (q : Int) (proto : String)
    (h : (externalPorts s.db).Pairwise (· ≠ ·)) :
    (externalPorts (add_exposed_port_to_pod s tok pid q proto).2.db).Pairwise
      (· ≠ ·) := by
  unfold add_exposed_port_to_pod
  split
  · exact h
  · exact h
  · split
    · exact h
    · next pod _ =>
      dsimp only
      split
      · exact h
      · simp only [externalPorts, List.map_append, List.map_cons, List.map_nil]
        exact pairwise_append_fresh h
          (fun y hy => lt_allocExternal (externalPorts s.db) y hy)

/-- C1: for every starting state whose stored `external_port` values are
pairwise distinct (in particular the empty ledger) and every sequence of
sequential reserve calls across any pods, users and ports, the stored
`external_port` values remain pairwise distinct: no two ReservedPort rows
ever hold the same `external_port`. -/
theorem reserve_external_ports_pairwise_distinct (s : St) (reqs : List PortReq)
    (h : (externalPorts s.db).Pairwise (· ≠ ·)) :
    (externalPorts (applyReserves s reqs).db).Pairwise (· ≠ ·) := by
  induction reqs generalizing s with
  | nil => exact h
  | cons q qs ih =>
    exact ih _ (add_exposed_preserves_distinct s q.tok q.pod_id q.port q.protocol h)

/-- Witness for C1 at a concrete input: from the empty ledger, after a
register and two successful and one conflicting reserve call the external
ports are `[30001, 30002]`, pairwise distinct. -/
theorem reserve_external_ports_pairwise_distinct_witness :
    ((externalPorts exSt1.db).Pairwise (· ≠ ·)) ∧
    (externalPorts (applyReserves exSt1
        [⟨exTokA, 1, 8080, "TCP"⟩, ⟨exTokA, 2, 80, "TCP"⟩,
         ⟨exTokA, 1, 8080, "TCP"⟩, ⟨exTokA, 2, 9090, "UDP"⟩]).db).Pairwise
      (· ≠ ·) := by
  constructor
  · decide
  · exact reserve_external_ports_pairwise_distinct exSt1 _ (by decide)

/-! ### C2: the allocation rule and the conflict rule of `reserve` -/

theorem pyMax_eq_maxQ (l : List Int) : pyMax l = l.max? := by
  cases l with
  | nil => rfl
  | cons x xs => rw [pyMax_cons]; rfl

/-- With every stored value positive (true of every reachable ledger, where
values are ≥ 30001), the code's falsiness test cannot fire on a non-empty
table and the allocation is exactly `max + 1`, or `30001` on an empty
table. -/
theorem allocExternal_of_pos (l : List Int) (hpos : ∀ x ∈ l, 0 < x) :
    allocExternal l
      = (match l.max? with
         | none => (30001 : Int)
         | some m => m + 1) := by
  unfold allocExternal
  rw [← pyMax_eq_maxQ]
  cases hm : pyMax l with
  | none => rfl
  | some v =>
    have hv : 0 < v := hpos v (pyMax_mem hm)
    dsimp only
    rw [if_neg (by simp only [beq_iff_eq]; omega)]

/-- The code's 400 test — `port in [i.port for i in reserved_ports]` over
the rows filtered to the caller AND this pod — matches "the internal port
is already reserved for that same pod" exactly when every row of the pod
belongs to the pod's owner (true of every reachable ledger, since rows are
only ever inserted by the pod's owner). -/
theorem conflict_cond_iff (rps : List ReservedPortRow) (tok : Token)
    (pod : PodRow) (q : Int)
    (hown : ∀ r ∈ rps, r.pod_id = pod.id → r.user_id = tok.id) :
    ((rps.filter (fun r => r.user_id == tok.id && r.pod_id == pod.id)).any
        (fun r => r.port == q)) = true
      ↔ ∃ r ∈ rps, r.pod_id = pod.id ∧ r.port = q := by
  rw [List.any_eq_true]
  constructor
  · rintro ⟨r, hr, hq⟩
    rcases List.mem_filter.mp hr with ⟨hmem, hcond⟩
    rcases Bool.and_eq_true_iff.mp hcond with ⟨_, hpid⟩
    exact ⟨r, hmem, by simpa using hpid, by simpa using hq⟩
  · rintro ⟨r, hmem, hpid, hq⟩
    refine ⟨r, List.mem_filter.mpr ⟨hmem, ?_⟩, by simpa using hq⟩
    have huid := hown r hmem hpid
    simp [huid, hpid]

/-- C2: for an authenticated caller and a pod of theirs, `reserve`
(`add_exposed_port_to_pod`) fails with 400 Conflict — inserting nothing
and leaving the state untouched — exactly when the internal port is
already reserved for that same pod; otherwise it succeeds and the inserted
row (whose external port is also embedded as the `nodePort` of the applied
service manifest) carries `external_port` = the current maximum over ALL
ReservedPort rows system-wide plus 1, or exactly 30001 when no reservation
exists.  Hypotheses `hpos`/`hown` state reachable-ledger facts: every
stored external port is positive and every reservation of this pod belongs
to its owner. -/
theorem add_exposed_port_allocation (s : St) (tok : Token) (pid : Nat)
    (q : Int) (proto : String) (u : UserRow) (pod : PodRow)
    (hauth : authUser s.db tok = .ok u)
    (hpod : (s.db.pods.filter (fun p => p.user_id == tok.id)).find?
      (fun p => p.id == pid) = some pod)
    (hpos : ∀ r ∈ s.db.reserved_ports, 0 < r.external_port)
    (hown : ∀ r ∈ s.db.reserved_ports, r.pod_id = pod.id → r.user_id = tok.id) :
    (add_exposed_port_to_pod s tok pid q proto = (.ret 400 "Invalid Request.", s)
        ↔ ∃ r ∈ s.db.reserved_ports, r.pod_id = pod.id ∧ r.port = q)
    ∧ ((¬ ∃ r ∈ s.db.reserved_ports, r.pod_id = pod.id ∧ r.port = q) →
        ∃ row : ReservedPortRow,
          add_exposed_port_to_pod s tok pid q proto
            = (.ret 200 "Done.",
               { s with
                 db := { s.db with
                         reserved_ports := s.db.reserved_ports ++ [row],
                         next_port_id := s.db.next_port_id + 1 },
                 pods_meta := writeMeta s.pods_meta
                   (pod.name ++ "-" ++ toString q ++ ".yaml")
                   (.svc (pod.name ++ "-" ++ toString q) proto q q
                     row.external_port pod.name),
                 kube := s.kube
                   ++ [.applyFile (pod.name ++ "-" ++ toString q ++ ".yaml")] })
          ∧ row.port = q ∧ row.pod_id = pod.id ∧ row.user_id = u.id
          ∧ row.external_port
              = (match (s.db.reserved_ports.map
                    (fun r => r.external_port)).max? with
                 | none => (30001 : Int)
                 | some m => m + 1)) := by
  have hiff := conflict_cond_iff s.db.reserved_ports tok pod q hown
  unfold add_exposed_port_to_pod
  simp only [hauth, hpod]
  by_cases hc : ((s.db.reserved_ports.filter
      (fun r => r.user_id == tok.id && r.pod_id == pod.id)).any
      (fun r => r.port == q)) = true
  · rw [if_pos hc]
    constructor
    · exact ⟨fun _ => hiff.mp hc, fun _ => rfl⟩
    · intro hn
      exact absurd (hiff.mp hc) hn
  · rw [if_neg hc]
    have halloc : allocExternal (s.db.reserved_ports.map (fun r => r.external_port))
        = (match (s.db.reserved_ports.map (fun r => r.external_port)).max? with
           | none => (30001 : Int)
           | some m => m + 1) := by
      apply allocExternal_of_pos
      intro x hx
      rcases List.mem_map.mp hx with ⟨r, hr, rfl⟩
      exact hpos r hr
    constructor
    · constructor
      · intro heq
        exact absurd (congrArg Prod.fst heq) (by simp)
      · intro hex
        exact absurd (hiff.mpr hex) hc
    · intro _
      refine ⟨{ id := s.db.next_port_id, port := q,
                external_port := allocExternal
                  (s.db.reserved_ports.map (fun r => r.external_port)),
                protocol := proto, user_id := u.id, pod_id := pod.id },
              rfl, rfl, rfl, rfl, halloc⟩

/-- Witness for C2 at a concrete input: in `exSt1` (one reservation,
external 30001, attached to pod 2 with internal port 80) reserving
internal port 8080 on pod 1 succeeds with external port 30002, and the
conflict test is the stated one. -/
theorem add_exposed_port_allocation_witness :
    (add_exposed_port_to_pod exSt1 exTokA 1 8080 "TCP"
        = (.ret 400 "Invalid Request.", exSt1)
      ↔ ∃ r ∈ exSt1.db.reserved_ports, r.pod_id = exPod1.id ∧ r.port = 8080)
    ∧ ((¬ ∃ r ∈ exSt1.db.reserved_ports, r.pod_id = exPod1.id ∧ r.port = 8080) →
        ∃ row : ReservedPortRow,
          add_exposed_port_to_pod exSt1 exTokA 1 8080 "TCP"
            = (.ret 200 "Done.",
               { exSt1 with
                 db := { exSt1.db with
                         reserved_ports := exSt1.db.reserved_ports ++ [row],
                         next_port_id := exSt1.db.next_port_id + 1 },
                 pods_meta := writeMeta exSt1.pods_meta
                   (exPod1.name ++ "-" ++ toString (8080 : Int) ++ ".yaml")
                   (.svc (exPod1.name ++ "-" ++ toString (8080 : Int)) "TCP"
                     8080 8080 row.external_port exPod1.name),
                 kube := exSt1.kube
                   ++ [.applyFile
                        (exPod1.name ++ "-" ++ toString (8080 : Int) ++ ".yaml")] })
          ∧ row.port = 8080 ∧ row.pod_id = exPod1.id ∧ row.user_id = exUserA.id
          ∧ row.external_port
              = (match (exSt1.db.reserved_ports.map


    (fun r => r.external_port)).max? with
                 | none => (30001 : Int)
                 | some m => m + 1)) :=
  add_exposed_port_allocation exSt1 exTokA 1 8080 "TCP" exUserA exPod1
    (by decide) (by decide) (by decide) (by decide)

/-! ### C3: `delete_pod` teardown -/

/-- An authenticated caller deleting a pod id that is not among their pods
gets 403 and a completely untouched state. -/
theorem delete_pod_not_owned (s : St) (tok : Token) (pid : Nat) (u : UserRow)
    (hauth : authUser s.db tok = .ok u)
    (hfind : (s.db.pods.filter (fun p => p.user_id == tok.id)).find?
      (fun p => p.id == pid) = none) :
    delete_pod s tok pid = (.ret 403 "Invalid credentials.", s, []) := by
  unfold delete_pod
  simp only [hauth, hfind]

/-- C3: a successful owner `delete_pod` returns 200 and leaves no
ReservedPort row, no PodEnv row, no Pod row and no on-disk manifest file
referencing the pod; a second call with the same pod id returns
403 Forbidden and changes nothing; and the observable actions happen in
the specified order — ReservedPort rows and their service objects first,
then PodEnv rows, then the manifest files, then the Pod row, and the live
workload object last (in particular all ledger children precede the
workload removal, and all file removals precede the Pod row removal).
Hypotheses `hrp`/`henv` state the reachable-ledger fact that children of
the pod belong to the pod's owner. -/
theorem delete_pod_teardown (s : St) (tok : Token) (pid : Nat)
    (u : UserRow) (pod : PodRow)
    (hauth : authUser s.db tok = .ok u)
    (hpod : (s.db.pods.filter (fun p => p.user_id == tok.id)).find?
      (fun p => p.id == pid) = some pod)
    (hrp : ∀ r ∈ s.db.reserved_ports, r.pod_id = pod.id → r.user_id = tok.id)
    (henv : ∀ e ∈ s.db.pod_envs, e.pod_id = pod.id → e.user_id = tok.id) :
    (delete_pod s tok pid).1 = .ret 200 "Done."
    ∧ (∀ r ∈ (delete_pod s tok pid).2.1.db.reserved_ports, r.pod_id ≠ pod.id)
    ∧ (∀ e ∈ (delete_pod s tok pid).2.1.db.pod_envs, e.pod_id ≠ pod.id)
    ∧ (∀ p ∈ (delete_pod s tok pid).2.1.db.pods, p.id ≠ pod.id)
    ∧ (∀ f ∈ (delete_pod s tok pid).2.1.pods_meta, ¬ pod.name.isPrefixOf f.1)
    ∧ delete_pod (delete_pod s tok pid).2.1 tok pid
        = (.ret 403 "Invalid credentials.", (delete_pod s tok pid).2.1, [])
    ∧ (∃ l₁ l₂ l₃,
        (delete_pod s tok pid).2.2
          = l₁ ++ l₂ ++ l₃ ++ [Ev.dbDelPod pod.id, Ev.kubeDelPod pod.name]
        ∧ (∀ e ∈ l₁, (∃ i, e = Ev.dbDelPort i) ∨ (∃ n, e = Ev.kubeDelSvc n))
        ∧ (∀ e ∈ l₂, ∃ i, e = Ev.dbDelEnv i)
        ∧ (∀ e ∈ l₃, ∃ f, e = Ev.rmFile f)) := by
  have hpid : pod.id = pid := by
    have := List.find?_some hpod
    simpa using this
  have hrun : delete_pod s tok pid
      = (.ret 200 "Done.", deletePodState s tok pod, deletePodEvents s tok pod) := by
    unfold delete_pod
    simp only [hauth, hpod]
  rw [hrun]
  dsimp only
  refine ⟨rfl, ?_, ?_, ?_, ?_, ?_, ?_⟩
  · intro r hr hpe
    rcases List.mem_filter.mp hr with ⟨hmem, hcond⟩
    have huid := hrp r hmem hpe
    simp [huid, hpe] at hcond
  · intro e he hpe
    rcases List.mem_filter.mp he with ⟨hmem, hcond⟩
    have huid := henv e hmem hpe
    simp [huid, hpe] at hcond
  · intro p hp hpe
    rcases List.mem_filter.mp hp with ⟨_, hcond⟩
    simp [hpe] at hcond
  · intro f hf
    rcases List.mem_filter.mp hf with ⟨_, hcond⟩
    simpa using hcond
  · apply delete_pod_not_owned _ _ _ u
    · exact hauth
    · apply List.find?_eq_none.mpr
      intro p hp
      rcases List.mem_filter.mp hp with ⟨hp1, _⟩
      rcases List.mem_filter.mp hp1 with ⟨_, hcond⟩
      have hne : p.id ≠ pod.id := by simpa using hcond
      simpa [hpid] using hne
  · unfold deletePodEvents
    refine ⟨_, _, _, rfl, ?_, ?_, ?_⟩
    · intro e he
      rcases List.mem_flatMap.mp he with ⟨r, _, hin⟩
      rcases List.mem_cons.mp hin with rfl | hin'
      · exact Or.inl ⟨r.id, rfl⟩
      · rcases List.mem_singleton.mp hin' with rfl
        exact Or.inr ⟨_, rfl⟩
    · intro e he
      rcases List.mem_map.mp he with ⟨x, _, rfl⟩
      exact ⟨x.id, rfl⟩
    · intro e he
      rcases List.mem_map.mp he with ⟨x, _, rfl⟩
      exact ⟨x.1, rfl⟩

/-- Witness for C3 at a concrete input: `exSt2` (pod 1 and pod 2, one
reservation on pod 2, both service manifests on disk), owner deletes
pod 2: success, nothing referencing pod 2 remains, the repeat call is a
403 no-op, and the action order is as specified. -/
theorem delete_pod_teardown_witness :
    (delete_pod exSt2 exTokA 2).1 = .ret 200 "Done."
    ∧ (∀ r ∈ (delete_pod exSt2 exTokA 2).2.1.db.reserved_ports,
        r.pod_id ≠ exPod2.id)
    ∧ (∀ e ∈ (delete_pod exSt2 exTokA 2).2.1.db.pod_envs, e.pod_id ≠ exPod2.id)
    ∧ (∀ p ∈ (delete_pod exSt2 exTokA 2).2.1.db.pods, p.id ≠ exPod2.id)
    ∧ (∀ f ∈ (delete_pod exSt2 exTokA 2).2.1.pods_meta,
        ¬ exPod2.name.isPrefixOf f.1)
    ∧ delete_pod (delete_pod exSt2 exTokA 2).2.1 exTokA 2
        = (.ret 403 "Invalid credentials.", (delete_pod exSt2 exTokA 2).2.1, [])
    ∧ (∃ l₁ l₂ l₃,
        (delete_pod exSt2 exTokA 2).2.2
          = l₁ ++ l₂ ++ l₃ ++ [Ev.dbDelPod exPod2.id, Ev.kubeDelPod exPod2.name]
        ∧ (∀ e ∈ l₁, (∃ i, e = Ev.dbDelPort i) ∨ (∃ n, e = Ev.kubeDelSvc n))
        ∧ (∀ e ∈ l₂, ∃ i, e = Ev.dbDelEnv i)
        ∧ (∀ e ∈ l₃, ∃ f, e = Ev.rmFile f)) :=
  delete_pod_teardown exSt2 exTokA 2 exUserA exPod2
    (by decide) (by decide) (by decide) (by decide)

/-! ### C7: a login rotates the session key and invalidates old tokens -/

/-- Whether a token authenticates (the credential check returns a user
rather than 403 or an exception). -/
def authOkB (db : DB) (t : Token) : Bool :=
  match authUser db t with
  | .ok _ => true
  | _ => false

/-- A list whose left part rejects the predicate finds only in the right
part. -/
theorem find?_append_right {α : Type} {l₁ l₂ : List α} {p : α → Bool}
    (h : ∀ x ∈ l₁, ¬ p x = true) :
    (l₁ ++ l₂).find? p = l₂.find? p := by
  induction l₁ with
  | nil => rfl
  | cons x xs ih =>
    rw [List.cons_append, List.find?_cons_of_neg _ (h x (List.mem_cons_self x xs))]
    exact ih (fun y hy => h y (List.mem_cons.mpr (Or.inr hy)))

/-- C7: let `t` be a token currently authenticating as user `u`.  After a
later successful `login` as `u` that draws a fresh key `k ≠ t.key`, the
call returns the new signed token `{id := u.id, key := k}`, `t` no longer
authenticates (403: the bcrypt hash of its embedded key no longer matches
the rotated stored hash), and a token with `u`'s id authenticates exactly
when it carries the freshly drawn key — i.e. only the most recently issued
token for `u` authenticates. -/
theorem login_rotates_session_key (db : DB) (tok : Token) (u : UserRow)
    (pw k : String)
    (hfind : db.users.find? (fun v => v.username == u.username) = some u)
    (hid : tok.id = u.id)
    (hauth : authUser db tok = .ok u)
    (hpw : checkpw pw u.password = true)
    (hfresh : k ≠ tok.key) :
    (login db u.username pw k).1 = .ret 200 (some ⟨u.id, k⟩)
    ∧ authUser (login db u.username pw k).2 tok = .forbidden
    ∧ (∀ t2 : Token, t2.id = u.id →
        (authOkB (login db u.username pw k).2 t2 = true ↔ t2.key = k)) := by
  have hrun : login db u.username pw k
      = (.ret 200 (some ⟨u.id, k⟩),
         { db with users := db.users.map (fun v =>
             if v.id == u.id then { v with session_key := some (hashpw k) }
             else v) }) := by
    unfold login
    rw [hfind]
    simp [hpw]
  have hfu : db.findUser u.id = some u := by
    have h1 := (authUser_ok_elim hauth).1
    rwa [hid] at h1
  have hmap : ∀ t2 : Token, t2.id = u.id →
      (login db u.username pw k).2.findUser t2.id
        = some { u with session_key := some (hashpw k) } := by
    intro t2 ht2
    rw [hrun]
    show ((db.users.map (fun v =>
      if v.id == u.id then { v with session_key := some (hashpw k) }
      else v)).find? (fun v => v.id == t2.id)) = _
    rw [List.find?_map]
    have hpf : ((fun v : UserRow => v.id == t2.id) ∘ (fun v =>
        if v.id == u.id then { v with session_key := some (hashpw k) }
        else v)) = (fun v : UserRow => v.id == t2.id) := by
      funext v
      by_cases hv : v.id == u.id
      · simp only [Function.comp_apply, if_pos hv]
      · simp only [Function.comp_apply, if_neg hv]
    rw [hpf]
    have := hfu
    unfold DB.findUser at this
    rw [ht2, this]
    simp
  refine ⟨by rw [hrun], ?_, ?_⟩
  · unfold authUser
    rw [hmap tok hid]
    have hck : checkpw tok.key (hashpw k) = false := by
      unfold checkpw hashpw
      simp only [beq_eq_false_iff_ne, ne_eq]
      exact fun hc => hfresh hc.symm
    dsimp only
    rw [hck]
    simp
  · intro t2 ht2
    unfold authOkB authUser
    rw [hmap t2 ht2]
    unfold checkpw hashpw
    by_cases hk : t2.key = k
    · simp [hk]
    · simp [hk]

/-- Witness for C7 at a concrete input: after `alice` (current key `K1`)
logs in again drawing `K9`, her old token `exTokA` is rejected and the
newly issued token authenticates. -/
theorem login_rotates_session_key_witness :
    (login exDB1 "alice" "pw" "K9").1 = .ret 200 (some ⟨1, "K9"⟩)
    ∧ authUser (login exDB1 "alice" "pw" "K9").2 exTokA = .forbidden
    ∧ authOkB (login exDB1 "alice" "pw" "K9").2 ⟨1, "K9"⟩ = true := by
  have h := login_rotates_session_key exDB1 exTokA exUserA "pw" "K9"
    (by decide) (by decide) (by decide) (by decide) (by decide)
  exact ⟨h.1, h.2.1, (h.2.2 ⟨1, "K9"⟩ rfl).mpr rfl⟩

/-! ### C8: first registration is free and admin; later ones are gated -/

/-- C8: with an empty user table `register` succeeds with ANY credential
value (the credential is never decoded) and creates the user with the
admin flag set; with a non-empty table it returns 403 unless the presented
credential authenticates to a user whose admin flag is set, in which case
the new user is created non-admin and the returned fresh signed token
(carrying the new user's id and the freshly drawn key) authenticates as
the new user.  `hname` (the new username is unused) rules out the
unique-constraint IntegrityError at flush; `hid` is the autoincrement
invariant that no stored row already carries the next id. -/
theorem register_gate (db : DB) (un pw k : String) (tok : Token) (u : UserRow)
    (hname : ∀ v ∈ db.users, v.username ≠ un)
    (hid : ∀ v ∈ db.users, v.id ≠ db.next_user_id) :
    (db.users = [] → ∀ cred,
      register db un pw cred k
        = (.ret 200 (some ⟨db.next_user_id, k⟩),
           { db with
             users := db.users
               ++ [⟨db.next_user_id, un, hashpw pw, true, some (hashpw k)⟩],
             next_user_id := db.next_user_id + 1 }))
    ∧ (db.users ≠ [] → authUser db tok = .ok u → u.is_admin = true →
        register db un pw (some tok) k
          = (.ret 200 (some ⟨db.next_user_id, k⟩),
             { db with
               users := db.users
                 ++ [⟨db.next_user_id, un, hashpw pw, false, some (hashpw k)⟩],
               next_user_id := db.next_user_id + 1 })
        ∧ authUser (register db un pw (some tok) k).2 ⟨db.next_user_id, k⟩
            = .ok ⟨db.next_user_id, un, hashpw pw, false, some (hashpw k)⟩)
    ∧ (db.users ≠ [] → authUser db tok = .ok u → u.is_admin = false →
        register db un pw (some tok) k = (.ret 403 none, db))
    ∧ (db.users ≠ [] → authUser db tok = .forbidden →
        register db un pw (some tok) k = (.ret 403 none, db)) := by
  have hany : (db.users.any (fun v => v.username == un)) = false := by
    rw [Bool.eq_false_iff]
    intro hc
    rcases List.any_eq_true.mp hc with ⟨v, hv, hveq⟩
    exact hname v hv (by simpa using hveq)
  refine ⟨?_, ?_, ?_, ?_⟩
  · intro hemp cred
    unfold register register_insert
    rw [hemp]
    simp [hany, hemp]
  · intro hne hok hadm
    have hlen : (db.users.length == 0) = false := by
      simp [List.length_eq_zero, hne]
    have hreg : register db un pw (some tok) k
        = (.ret 200 (some ⟨db.next_user_id, k⟩),
           { db with
             users := db.users
               ++ [⟨db.next_user_id, un, hashpw pw, false, some (hashpw k)⟩],
             next_user_id := db.next_user_id + 1 }) := by
      unfold register register_insert
      simp [hlen, hok, hadm, hany]
    refine ⟨hreg, ?_⟩
    rw [hreg]
    unfold authUser DB.findUser
    rw [show ({ db with
          users := db.users
            ++ [⟨db.next_user_id, un, hashpw pw, false, some (hashpw k)⟩],
          next_user_id := db.next_user_id + 1 } : DB).users
        = db.users
            ++ [⟨db.next_user_id, un, hashpw pw, false, some (hashpw k)⟩] from rfl]
    rw [find?_append_right (fun v hv => by
      simp only [Bool.not_eq_true, beq_eq_false_iff_ne, ne_eq]
      exact hid v hv)]
    simp [checkpw, hashpw]
  · intro hne hok hnadm
    have hlen : (db.users.length == 0) = false := by
      simp [List.length_eq_zero, hne]
    unfold register
    simp [hlen, hok, hnadm]
  · intro hne hforb
    have hlen : (db.users.length == 0) = false := by
      simp [List.length_eq_zero, hne]
    unfold register
    simp [hlen, hforb]

/-- Witness for C8 at concrete inputs: `exDB1` is non-empty; admin `alice`
registers `carol` (created non-admin, fresh token authenticates as carol);
non-admin `bob` is refused registering `dave`. -/
theorem register_gate_witness :
    register exDB1 "carol" "pw3" (some exTokA) "K7"
      = (.ret 200 (some ⟨3, "K7"⟩),
         { exDB1 with
           users := exDB1.users
             ++ [⟨3, "carol", hashpw "pw3", false, some (hashpw "K7")⟩],
           next_user_id := 4 })
    ∧ authUser (register exDB1 "carol" "pw3" (some exTokA) "K7").2 ⟨3, "K7"⟩
        = .ok ⟨3, "carol", hashpw "pw3", false, some (hashpw "K7")⟩
    ∧ register exDB1 "dave" "pw4" (some ⟨2, "K2"⟩) "K8" = (.ret 403 none, exDB1) := by
  have h := register_gate exDB1 "carol" "pw3" "K7" exTokA exUserA
    (by decide) (by decide)
  have h2 := register_gate exDB1 "dave" "pw4" "K8" ⟨2, "K2"⟩ exUserB
    (by decide) (by decide)
  refine ⟨(h.2.1 (by decide) (by decide) rfl).1,
    (h.2.1 (by decide) (by decide) rfl).2,
    h2.2.2.1 (by decide) (by decide) rfl⟩

end Orchestr8
